import Mathlib

/-!
Shallow embedding of the relationship-strength scoring engine
(`src/scoring/relationship_scorer.py`) of the Blockchain-Monitor-and-Sleuther
repository, together with proofs settling the frozen claims about it.

Modelling conventions:
* SQL tables become lists of rows; `fetchone` on a keyed lookup becomes `List.find?`.
* Monetary amounts, balances and counters are `Nat` (the store keeps them as
  non-negative integers in the smallest unit); score arithmetic is exact `ℚ`.
* Timestamps are `Int` seconds; Python's `timedelta.days` is `Int.fdiv _ 86400`
  (floor division, matching Python's normalisation of negative timedeltas),
  SQLite's `DATE()` is the epoch day `Int.fdiv _ 86400`, and `strftime('%H')`
  is `(t.emod 86400) / 3600`.
* Python's `round(x, 2)` (round half to even on the scaled value) is `round2`.
* Fallible paths return `Except String _`.
-/

namespace Sleuther

/-- A row of the `accounts` table: `address` (unique key), `balance` in the
smallest unit, `created_at`.  The schema stores `created_at` for every
account, so it is not optional here. -/
structure Account where
  address : String
  balance : Nat
  createdAt : Int
deriving Repr, DecidableEq

/-- A row of the `account_relationships` table, keyed by
`(from_address, to_address)`: the aggregate volume and transfer count and the
first-seen time (`created_at`, nullable — the code checks it for NULL). -/
structure Rel where
  fromAddr : String
  toAddr : String
  totalVolume : Nat
  transferCount : Nat
  createdAt : Option Int
deriving Repr, DecidableEq

/-- A row of the `transfers` table. -/
structure Transfer where
  fromAddr : String
  toAddr : String
  value : Nat
  timestamp : Int
deriving Repr, DecidableEq

/-- A row of the `account_network_metrics` table, one per account, fully
overwritten by each Centrality Engine run. -/
structure Metric where
  address : String
  degreeCentrality : ℚ
  betweennessCentrality : ℚ
  closenessCentrality : ℚ
  clusteringCoefficient : ℚ
  pagerank : ℚ
  commonNeighborsAvg : ℚ
  updatedAt : Int
deriving Repr, DecidableEq

/-- The shared relational store read by every scorer. -/
structure Store where
  accounts : List Account
  relationships : List Rel
  transfers : List Transfer
  metrics : List Metric
deriving Repr, DecidableEq

/-- `SELECT ... FROM account_relationships WHERE from_address = ? AND
to_address = ?` followed by `fetchone`. -/
def findRel (s : Store) (a b : String) : Option Rel :=
  s.relationships.find? (fun r => r.fromAddr == a && r.toAddr == b)

/-- `SELECT ... FROM accounts WHERE address = ?` followed by `fetchone`. -/
def findAccount (s : Store) (x : String) : Option Account :=
  s.accounts.find? (fun acc => acc.address == x)

/-- All transfers of the ordered pair `(a, b)` (the join used by the
frequency, temporal and risk queries). -/
def pairTransfers (s : Store) (a b : String) : List Transfer :=
  s.transfers.filter (fun t => t.fromAddr == a && t.toAddr == b)

/-- `max(COUNT(*), 1)` over `account_relationships` — the percentile
denominator. -/
def totalRel (s : Store) : Nat :=
  max s.relationships.length 1

/-- `SUM(CASE WHEN CAST(total_volume AS REAL) < ? THEN 1 ELSE 0 END)`:
the strictly-less count for the total-volume population. -/
def volumeRank (s : Store) (v : ℚ) : Nat :=
  s.relationships.countP (fun r => decide ((r.totalVolume : ℚ) < v))

/-- `SUM(CASE WHEN CAST(total_volume AS REAL) / NULLIF(transfer_count, 0) < ?
THEN 1 ELSE 0 END)`: the strictly-less count for the average-transfer-size
population.  For a row with `transfer_count = 0` the `NULLIF` makes the
compared value `NULL`, so such a row is never counted. -/
def avgSizeRank (s : Store) (v : ℚ) : Nat :=
  s.relationships.countP
    (fun r => decide (r.transferCount ≠ 0 ∧ (r.totalVolume : ℚ) / (r.transferCount : ℚ) < v))

/-- The breakdown record of `calculate_volume_score`. -/
structure VolDetails where
  totalVolume : ℚ
  avgTransferSize : ℚ
  volumePercentile : ℚ
  avgSizePercentile : ℚ
  volumeComponent : ℚ
  avgSizeComponent : ℚ
  relativeVolumeComponent : ℚ
deriving Repr, DecidableEq

/-- `calculate_volume_score` (lines 42–106): volume-based score in `[0,100]`,
`(0, none)` when no relationship row exists (`none` models the empty dict). -/
def calculateVolumeScore (s : Store) (a b : String) : ℚ × Option VolDetails :=
  match findRel s a b with
  | none => (0, none)
  | some r =>
    let totalVolume : ℚ := r.totalVolume
    let senderBalance : ℚ := ((findAccount s a).map (fun acc => (acc.balance : ℚ))).getD 0
    let avgTransferSize : ℚ := totalVolume / (max r.transferCount 1 : Nat)
    let volumePercentile : ℚ := (volumeRank s totalVolume : ℚ) / (totalRel s : ℚ)
    let avgSizePercentile : ℚ := (avgSizeRank s avgTransferSize : ℚ) / (totalRel s : ℚ)
    let volumeComponent : ℚ := min 40 (volumePercentile * 40)
    let avgSizeComponent : ℚ := min 30 (avgSizePercentile * 30)
    let relativeVolumeComponent : ℚ :=
      if 0 < senderBalance then min 30 (totalVolume / senderBalance * 100) else 15
    let totalScore := volumeComponent + avgSizeComponent + relativeVolumeComponent
    (min 100 totalScore,
      some ⟨totalVolume, avgTransferSize, volumePercentile, avgSizePercentile,
            volumeComponent, avgSizeComponent, relativeVolumeComponent⟩)

/-- `MIN(t.timestamp)` over a non-empty transfer list (head plus tail). -/
def minTimestamp (t : Transfer) (ts : List Transfer) : Int :=
  ts.foldl (fun m u => min m u.timestamp) t.timestamp

/-- `MAX(t.timestamp)` over a non-empty transfer list (head plus tail). -/
def maxTimestamp (t : Transfer) (ts : List Transfer) : Int :=
  ts.foldl (fun m u => max m u.timestamp) t.timestamp

/-- SQLite `DATE(timestamp)`: the calendar day, as an epoch day number. -/
def epochDay (t : Int) : Int :=
  t.fdiv 86400

/-- `COUNT(DISTINCT DATE(t.timestamp))`. -/
def uniqueDays (l : List Transfer) : Nat :=
  ((l.map (fun t => epochDay t.timestamp)).dedup).length

/-- The breakdown record of `calculate_frequency_score`. -/
structure FreqDetails where
  transferCount : Nat
  daysActive : Int
  transfersPerDay : ℚ
  uniqueDays : Nat
  countPercentile : ℚ
  frequencyPercentile : ℚ
  countComponent : ℚ
  frequencyComponent : ℚ
  consistencyComponent : ℚ
deriving Repr, DecidableEq

/-- `calculate_frequency_score` (lines 108–172).  The SQL joins the
relationship row with the pair's transfers, so a result row exists exactly
when the relationship row exists and the pair has at least one transfer;
the code then returns `(0, none)` when `transfer_count == 0`. -/
def calculateFrequencyScore (s : Store) (a b : String) : ℚ × Option FreqDetails :=
  match findRel s a b, pairTransfers s a b with
  | some r, t :: ts =>
    if r.transferCount = 0 then (0, none)
    else
      let firstTransfer := minTimestamp t ts
      let lastTransfer := maxTimestamp t ts
      let daysActive : Int := max ((lastTransfer - firstTransfer).fdiv 86400 + 1) 1
      let transfersPerDay : ℚ := (r.transferCount : ℚ) / (daysActive : ℚ)
      let countRank : Nat := s.relationships.countP (fun q => decide (q.transferCount < r.transferCount))
      let countPercentile : ℚ := (countRank : ℚ) / (totalRel s : ℚ)
      let frequencyPercentile : ℚ := min 1 (transfersPerDay / 10)
      let countComponent : ℚ := min 40 (countPercentile * 40)
      let frequencyComponent : ℚ := min 30 (frequencyPercentile * 30)
      let consistencyComponent : ℚ := min 30 ((uniqueDays (t :: ts) : ℚ) / (daysActive : ℚ) * 30)
      let totalScore := countComponent + frequencyComponent + consistencyComponent
      (min 100 totalScore,
        some ⟨r.transferCount, daysActive, transfersPerDay, uniqueDays (t :: ts),
              countPercentile, frequencyPercentile, countComponent, frequencyComponent,
              consistencyComponent⟩)
  | _, _ => (0, none)

/-- The breakdown record of `calculate_temporal_score`. -/
structure TempDetails where
  daysSinceLast : Int
  relationshipDays : Int
  transfersLastWeek : Nat
  transfersLastMonth : Nat
  recencyComponent : ℚ
  durationComponent : ℚ
  activityComponent : ℚ
deriving Repr, DecidableEq

/-- `calculate_temporal_score` (lines 174–238), with the evaluation time
(`datetime.now()` / SQLite `datetime('now')`) passed explicitly as `now`
(seconds).  Note the returned score is `recency + duration + activity`
without a final `min 100` cap. -/
def calculateTemporalScore (s : Store) (now : Int) (a b : String) : ℚ × Option TempDetails :=
  match findRel s a b, pairTransfers s a b with
  | some r, t :: ts =>
    let firstTransfer := minTimestamp t ts
    let lastTransfer := maxTimestamp t ts
    let daysSinceLast : Int := (now - lastTransfer).fdiv 86400
    let relationshipDays : Int := (lastTransfer - firstTransfer).fdiv 86400 + 1
    let recencyComponent : ℚ :=
      if daysSinceLast ≤ 1 then 40
      else if daysSinceLast ≤ 7 then 35
      else if daysSinceLast ≤ 30 then 25
      else if daysSinceLast ≤ 90 then 15
      else if daysSinceLast ≤ 365 then 5
      else 0
    let durationComponent : ℚ := min 30 ((relationshipDays : ℚ) / 365 * 30)
    let transfersLastWeek : Nat := (t :: ts).countP (fun u => decide (now - 7 * 86400 ≤ u.timestamp))
    let transfersLastMonth : Nat := (t :: ts).countP (fun u => decide (now - 30 * 86400 ≤ u.timestamp))
    let activityComponent : ℚ :=
      if 0 < r.transferCount then
        min 30 ((transfersLastWeek : ℚ) / (r.transferCount : ℚ) * 15 +
                (transfersLastMonth : ℚ) / (r.transferCount : ℚ) * 15)
      else 0
    (recencyComponent + durationComponent + activityComponent,
      some ⟨daysSinceLast, relationshipDays, transfersLastWeek, transfersLastMonth,
            recencyComponent, durationComponent, activityComponent⟩)
  | _, _ => (0, none)

/-- The non-`NULL` values produced, one per qualifying row pair, by the
common-connections query (lines 245–254):
`CASE WHEN r1.to_address = r2.from_address THEN r1.to_address
      WHEN r1.from_address = r2.to_address THEN r1.from_address END`
over pairs with `r1.from_address = a`, `r2.to_address = b` and
`(r1.to_address = r2.from_address OR r1.from_address = r2.to_address)`. -/
def commonConnectionValues (s : Store) (a b : String) : List String :=
  (s.relationships.filter (fun r1 => r1.fromAddr == a)).flatMap (fun r1 =>
    (s.relationships.filter (fun r2 => r2.toAddr == b)).filterMap (fun r2 =>
      if r1.toAddr == r2.fromAddr then some r1.toAddr
      else if r1.fromAddr == r2.toAddr then some r1.fromAddr
      else none))

/-- `COUNT(DISTINCT CASE ... END)` of the common-connections query. -/
def commonConnections (s : Store) (a b : String) : Nat :=
  (commonConnectionValues s a b).dedup.length

/-- Modelled from the spec: the §4.5 centrality lookup — `degree_centrality`
and `pagerank` of one address from `account_network_metrics`, `0` when the
row is missing.  The source's query (lines 259–268) places a bind parameter
in column position (`f.?`), which SQLite rejects at prepare time, so the
query as written never runs; this definition follows the spec's words for
it. -/
def metricsLookup (s : Store) (x : String) : ℚ × ℚ :=
  match s.metrics.find? (fun m => m.address == x) with
  | some m => (m.degreeCentrality, m.pagerank)
  | none => (0, 0)

/-- The breakdown record of `calculate_network_score`. -/
structure NetDetails where
  commonConnections : Nat
  avgDegreeCentrality : ℚ
  avgPagerank : ℚ
  commonConnectionsComponent : ℚ
  centralityComponent : ℚ
  importanceComponent : ℚ
deriving Repr, DecidableEq

/-- `calculate_network_score` (lines 240–293) with the metrics lookup taken
from the spec (see `metricsLookup`).  Note there is no check that a
relationship row exists for `(a, b)`. -/
def calculateNetworkScoreSpec (s : Store) (a b : String) : ℚ × Option NetDetails :=
  let common := commonConnections s a b
  let fromMetrics := metricsLookup s a
  let toMetrics := metricsLookup s b
  let avgDegree : ℚ := (fromMetrics.1 + toMetrics.1) / 2
  let avgPagerank : ℚ := (fromMetrics.2 + toMetrics.2) / 2
  let commonConnectionsComponent : ℚ := min 40 ((common : ℚ) * 5)
  let centralityComponent : ℚ := min 30 (avgDegree * 100)
  let importanceComponent : ℚ := min 30 (avgPagerank * 1000)
  let totalScore := commonConnectionsComponent + centralityComponent + importanceComponent
  (min 100 totalScore,
    some ⟨common, avgDegree, avgPagerank, commonConnectionsComponent,
          centralityComponent, importanceComponent⟩)

/-- `calculate_network_score` as actually written: the first query computes
the common-connections count, then preparing the metrics query raises
`sqlite3.OperationalError: near "?": syntax error` (the bind parameter
`f.?` sits in column position), so the function raises on every input and
never returns a score. -/
def calculateNetworkScoreRun (s : Store) (a b : String) :
    Except String (ℚ × Option NetDetails) :=
  let _common := commonConnections s a b
  Except.error "sqlite3.OperationalError: near \x22?\x22: syntax error"

/-- `t1.from_address = ? AND t2.to_address = ? AND t1.to_address =
t2.from_address AND ABS(julianday(t2.timestamp) - julianday(t1.timestamp))
* 24 * 60 < 5` — the rapid sequential transfer count (lines 313–320),
counting ordered pairs of transfers; five minutes is `300` seconds. -/
def rapidTransfers (s : Store) (a b : String) : Nat :=
  (s.transfers.map (fun t1 =>
    if t1.fromAddr == a then
      s.transfers.countP (fun t2 =>
        t2.toAddr == b && t1.toAddr == t2.fromAddr &&
          decide ((t2.timestamp - t1.timestamp).natAbs < 300))
    else 0)).sum

/-- The round-number count (lines 325–336): transfers of the pair whose
value is an exact multiple of `10^12`, `10^13` or `10^14`. -/
def roundNumbers (s : Store) (a b : String) : Nat :=
  (pairTransfers s a b).countP (fun t =>
    t.value % 1000000000000 == 0 ||
    t.value % 10000000000000 == 0 ||
    t.value % 100000000000000 == 0)

/-- `CAST(strftime('%H', timestamp) AS INTEGER)`: the hour of day. -/
def hourOfDay (t : Int) : Int :=
  (t.emod 86400).fdiv 3600

/-- The unusual-hour count (lines 339–346): transfers with hour in `[2,5]`. -/
def unusualTime (s : Store) (a b : String) : Nat :=
  (pairTransfers s a b).countP (fun t =>
    decide (2 ≤ hourOfDay t.timestamp ∧ hourOfDay t.timestamp ≤ 5))

/-- The new-account flag (lines 349–361): `1` when the receiving account's
row exists, the relationship row's `created_at` is non-`NULL`, and
`(rel_created - acc_created).days < 7` (Python `timedelta.days`, i.e. floor
division of the difference in seconds by 86400); else `0`. -/
def newAccountFlag (s : Store) (b : String) (relCreated : Option Int) : Nat :=
  match findAccount s b, relCreated with
  | some acc, some rc => if (rc - acc.createdAt).fdiv 86400 < 7 then 1 else 0
  | _, _ => 0

/-- The breakdown record of `calculate_risk_score`. -/
structure RiskDetails where
  rapidTransfers : Nat
  roundNumbers : Nat
  unusualTimeTransfers : Nat
  newAccountInteraction : Bool
  rapidTransferRisk : ℚ
  roundNumberRisk : ℚ
  timeAnomalyRisk : ℚ
  newAccountRisk : ℚ
deriving Repr, DecidableEq

/-- `calculate_risk_score` (lines 295–382): risk indicators in `[0,100]`,
`(0, none)` when no relationship row exists. -/
def calculateRiskScore (s : Store) (a b : String) : ℚ × Option RiskDetails :=
  match findRel s a b with
  | none => (0, none)
  | some r =>
    let denom : ℚ := (max r.transferCount 1 : Nat)
    let rapid := rapidTransfers s a b
    let rnd := roundNumbers s a b
    let unusual := unusualTime s a b
    let flag := newAccountFlag s b r.createdAt
    let rapidTransferRisk : ℚ := min 30 ((rapid : ℚ) / denom * 100)
    let roundNumberRisk : ℚ := min 25 ((rnd : ℚ) / denom * 50)
    let timeAnomalyRisk : ℚ := min 25 ((unusual : ℚ) / denom * 50)
    let newAccountRisk : ℚ := (flag : ℚ) * 20
    let totalRisk := rapidTransferRisk + roundNumberRisk + timeAnomalyRisk + newAccountRisk
    (min 100 totalRisk,
      some ⟨rapid, rnd, unusual, flag ≠ 0, rapidTransferRisk, roundNumberRisk,
            timeAnomalyRisk, newAccountRisk⟩)

/-- Round half to even, the rounding Python's `round` applies. -/
def roundHalfEven (x : ℚ) : Int :=
  let f := ⌊x⌋
  let r := x - (f : ℚ)
  if r < 1 / 2 then f
  else if 1 / 2 < r then f + 1
  else if f % 2 = 0 then f else f + 1

/-- Python `round(x, 2)`. -/
def round2 (x : ℚ) : ℚ :=
  (roundHalfEven (x * 100) : ℚ) / 100

/-- The fixed component weights of `calculate_total_score` (lines 395–400). -/
def weightVolume : ℚ := 25 / 100
/-- Frequency weight. -/
def weightFrequency : ℚ := 25 / 100
/-- Temporal weight. -/
def weightTemporal : ℚ := 20 / 100
/-- Network weight. -/
def weightNetwork : ℚ := 30 / 100

/-- `base_score` (lines 402–407), with the network score of the
spec-modelled lookup (see `calculateNetworkScoreSpec`). -/
def baseScore (s : Store) (now : Int) (a b : String) : ℚ :=
  (calculateVolumeScore s a b).1 * weightVolume +
  (calculateFrequencyScore s a b).1 * weightFrequency +
  (calculateTemporalScore s now a b).1 * weightTemporal +
  (calculateNetworkScoreSpec s a b).1 * weightNetwork

/-- `risk_multiplier = 1 - (risk_score / 200)` (line 410). -/
def riskMultiplier (s : Store) (a b : String) : ℚ :=
  1 - (calculateRiskScore s a b).1 / 200

/-- `total_score = round(base_score * risk_multiplier, 2)` (line 411), on
the pipeline whose network lookup is spec-modelled. -/
def calculateTotalScoreSpec (s : Store) (now : Int) (a b : String) : ℚ :=
  round2 (baseScore s now a b * riskMultiplier s a b)

/-- `calculate_total_score` as actually written: it calls
`calculate_network_score`, whose malformed metrics query raises, so the
whole computation raises on every input. -/
def calculateTotalScoreRun (s : Store) (now : Int) (a b : String) : Except String ℚ :=
  match calculateNetworkScoreRun s a b with
  | Except.error e => Except.error e
  | Except.ok net =>
    Except.ok (round2
      (((calculateVolumeScore s a b).1 * weightVolume +
        (calculateFrequencyScore s a b).1 * weightFrequency +
        (calculateTemporalScore s now a b).1 * weightTemporal +
        net.1 * weightNetwork) * riskMultiplier s a b))

/-- `True` iff an `account_relationships` edge `x → y` exists. -/
def hasEdge (s : Store) (x y : String) : Bool :=
  s.relationships.any (fun r => r.fromAddr == x && r.toAddr == y)

/-- All addresses appearing in any relationship, without duplicates (the
node set of the transfer graph and the candidate intermediaries). -/
def relAddresses (s : Store) : List String :=
  (s.relationships.flatMap (fun r => [r.fromAddr, r.toAddr])).dedup

/-- The spec's common-connections count, stated from the spec's words for
comparison with the source's `commonConnections`: the number of distinct
intermediaries `X` with (`a→X` and `X→b`) or (`X→a` and `b→X`). -/
def specCommonConnections (s : Store) (a b : String) : Nat :=
  ((relAddresses s).filter (fun x =>
    (hasEdge s a x && hasEdge s x b) || (hasEdge s x a && hasEdge s b x))).length

/-- The forward half of the spec's common-connections count: distinct `X`
with `a→X` and `X→b`. -/
def forwardCommonConnections (s : Store) (a b : String) : Nat :=
  ((relAddresses s).filter (fun x => hasEdge s a x && hasEdge s x b)).length

/-- The spec's average-transfer-size strictly-less count, stated from the
spec's words for comparison with the source's `avgSizeRank`: every row's
value is `total_volume / max(transfer_count, 1)` and no row is excluded. -/
def specAvgSizeRank (s : Store) (v : ℚ) : Nat :=
  s.relationships.countP
    (fun r => decide ((r.totalVolume : ℚ) / (max r.transferCount 1 : Nat) < v))

/-- Replace the `total_volume` of the first row keyed `(a, b)`, leaving
every other row unchanged — the population perturbation of the
monotonicity property. -/
def setVolumeRows : List Rel → String → String → Nat → List Rel
  | [], _, _, _ => []
  | r :: rs, a, b, v =>
    if r.fromAddr == a && r.toAddr == b then { r with totalVolume := v } :: rs
    else r :: setVolumeRows rs a b v

/-- The store with the `(a, b)` relationship row's `total_volume` set to
`v`. -/
def setVolume (s : Store) (a b : String) (v : Nat) : Store :=
  { s with relationships := setVolumeRows s.relationships a b v }

/-- The `volume_component` (line 86) of the pair's row, `0` when the row is
missing. -/
def volumeComponentOf (s : Store) (a b : String) : ℚ :=
  match findRel s a b with
  | none => 0
  | some r => min 40 ((volumeRank s (r.totalVolume : ℚ) : ℚ) / (totalRel s : ℚ) * 40)

/-! ### Centrality Engine (`update_network_metrics`, lines 437–497)

The engine builds a directed graph from the relationship rows, computes
per-node metrics, and upserts one row per node, committing once at the end.
Degree centrality, betweenness, closeness, pagerank and clustering are
delegated to networkx (library code, not in this repository); the
common-neighbors average is computed inline (lines 469–479) and is embedded
from the source.  The four networkx-only metrics enter the model as an
explicit input `lib`. -/

/-- Distinct successors of `v` in the relationship graph. -/
def successors (rels : List Rel) (v : String) : List String :=
  ((rels.filter (fun r => r.fromAddr == v)).map (fun r => r.toAddr)).dedup

/-- Distinct predecessors of `v` in the relationship graph. -/
def predecessors (rels : List Rel) (v : String) : List String :=
  ((rels.filter (fun r => r.toAddr == v)).map (fun r => r.fromAddr)).dedup

/-- `set(G.neighbors(node)) | set(G.predecessors(node))` (line 471). -/
def neighborSet (rels : List Rel) (v : String) : List String :=
  (successors rels v ++ predecessors rels v).dedup

/-- The node list of the engine's graph. -/
def graphNodes (rels : List Rel) : List String :=
  (rels.flatMap (fun r => [r.fromAddr, r.toAddr])).dedup

/-- Modelled from the spec: networkx's degree centrality — the fraction of
all other nodes directly connected (in or out); the source delegates this
to `nx.degree_centrality`, which is not part of this repository. -/
def degreeCentralityOf (rels : List Rel) (v : String) : ℚ :=
  if (graphNodes rels).length ≤ 1 then 1
  else ((neighborSet rels v).length : ℚ) / (((graphNodes rels).length : ℚ) - 1)

/-- The inline common-neighbors average (lines 469–479): for each neighbor
`u` of `v`, the size of `N(v) ∩ N(u)`, averaged; `0` when `N(v)` is
empty. -/
def commonNeighborsAvg (rels : List Rel) (v : String) : ℚ :=
  let nbrs := neighborSet rels v
  match nbrs with
  | [] => 0
  | _ =>
    (((nbrs.map (fun u => ((neighborSet rels u).filter (fun w => nbrs.contains w)).length)).sum : ℚ)
      / (nbrs.length : ℚ))

/-- The row the engine upserts for node `v` (lines 482–495).  `lib v` is
`(betweenness, closeness, clustering, pagerank)` as returned by networkx. -/
def engineMetricRow (rels : List Rel) (lib : String → ℚ × ℚ × ℚ × ℚ) (now : Int)
    (v : String) : Metric :=
  { address := v
    degreeCentrality := degreeCentralityOf rels v
    betweennessCentrality := (lib v).1
    closenessCentrality := (lib v).2.1
    clusteringCoefficient := (lib v).2.2.1
    pagerank := (lib v).2.2.2
    commonNeighborsAvg := commonNeighborsAvg rels v
    updatedAt := now }

/-- The full write list of one engine run, in node order. -/
def engineWrites (rels : List Rel) (lib : String → ℚ × ℚ × ℚ × ℚ) (now : Int) :
    List Metric :=
  (graphNodes rels).map (engineMetricRow rels lib now)

/-- `INSERT OR REPLACE` keyed by `address`. -/
def upsertMetric (tbl : List Metric) (m : Metric) : List Metric :=
  tbl.filter (fun x => !(x.address == m.address)) ++ [m]

/-- The sqlite connection state seen during an engine run: `committed` is
what other readers observe, `tx` the open transaction's view.  Python's
sqlite3 buffers DML in an implicit transaction that becomes visible to
other connections only at `conn.commit()`; the source commits exactly once,
after all upserts (line 497), and installs no exception handler. -/
structure DBState where
  committed : List Metric
  tx : List Metric
deriving Repr, DecidableEq

/-- One uncommitted upsert. -/
def writeStep (d : DBState) (m : Metric) : DBState :=
  { d with tx := upsertMetric d.tx m }

/-- `conn.commit()`. -/
def commitTx (d : DBState) : DBState :=
  { d with committed := d.tx }

/-- What a concurrent reader observes. -/
def observe (d : DBState) : List Metric :=
  d.committed

/-- The engine after performing the first `k` upserts of a run, with no
commit yet. -/
def engineSteps (writes : List Metric) (k : Nat) (d : DBState) : DBState :=
  (writes.take k).foldl writeStep d

/-- One `update_network_metrics` run over store `s`: `failAt = some k`
models an exception thrown after `k` upserts (store/query/library failure);
the exception propagates to the caller — the source has no handler — and
the commit is never reached.  `failAt = none` is a completed run. -/
def updateNetworkMetricsRun (s : Store) (lib : String → ℚ × ℚ × ℚ × ℚ) (now : Int)
    (failAt : Option Nat) : Except String DBState :=
  let d0 : DBState := ⟨s.metrics, s.metrics⟩
  let writes := engineWrites s.relationships lib now
  match failAt with
  | some _ => Except.error "engine run failed"
  | none => Except.ok (commitTx (engineSteps writes writes.length d0))

/-- Well-formed metrics table: the stored degree centralities and pageranks
are non-negative, as the Centrality Engine writes them. -/
def wfMetrics (s : Store) : Bool :=
  s.metrics.all (fun m => decide (0 ≤ m.degreeCentrality) && decide (0 ≤ m.pagerank))

/-! ### Arithmetic lemmas about the rounding -/

theorem roundHalfEven_le_add_half (x : ℚ) : (roundHalfEven x : ℚ) ≤ x + 1 / 2 := by
  unfold roundHalfEven
  dsimp only
  have hf : (⌊x⌋ : ℚ) ≤ x := Int.floor_le x
  have hf' : x < (⌊x⌋ : ℚ) + 1 := Int.lt_floor_add_one x
  split_ifs with h1 h2 h3 <;> push_cast <;> linarith

theorem sub_half_le_roundHalfEven (x : ℚ) : x - 1 / 2 ≤ (roundHalfEven x : ℚ) := by
  unfold roundHalfEven
  dsimp only
  have hf : (⌊x⌋ : ℚ) ≤ x := Int.floor_le x
  have hf' : x < (⌊x⌋ : ℚ) + 1 := Int.lt_floor_add_one x
  split_ifs with h1 h2 h3 <;> push_cast <;> linarith

theorem round2_le_add (x : ℚ) : round2 x ≤ x + 1 / 200 := by
  unfold round2
  have h := roundHalfEven_le_add_half (x * 100)
  linarith

theorem sub_le_round2 (x : ℚ) : x - 1 / 200 ≤ round2 x := by
  unfold round2
  have h := sub_half_le_roundHalfEven (x * 100)
  linarith

theorem round2_nonneg {x : ℚ} (hx : 0 ≤ x) : 0 ≤ round2 x := by
  unfold round2
  have h0 : (0 : ℚ) ≤ ⌊x * 100⌋ := by
    have := Int.floor_nonneg.mpr (by positivity : (0:ℚ) ≤ x * 100)
    exact_mod_cast this
  unfold roundHalfEven
  dsimp only
  split_ifs <;> push_cast <;> linarith

/-- If `100 x ≤ c` with `c` an integer, then `round2 x ≤ c / 100`. -/
theorem round2_le_intBound {x : ℚ} {c : Int} (hx : x * 100 ≤ (c : ℚ)) :
    round2 x ≤ (c : ℚ) / 100 := by
  have h2 : (roundHalfEven (x * 100) : ℚ) ≤ x * 100 + 1 / 2 :=
    roundHalfEven_le_add_half (x * 100)
  have hle : roundHalfEven (x * 100) ≤ c := by
    by_contra hcon
    push_neg at hcon
    have h4 : (c : ℚ) + 1 ≤ (roundHalfEven (x * 100) : ℚ) := by exact_mod_cast hcon
    linarith
  have h5 : (roundHalfEven (x * 100) : ℚ) ≤ (c : ℚ) := by exact_mod_cast hle
  unfold round2
  linarith

/-! ### Range lemmas for the component scorers -/

theorem volumeScore_mem (s : Store) (a b : String) :
    0 ≤ (calculateVolumeScore s a b).1 ∧ (calculateVolumeScore s a b).1 ≤ 100 := by
  unfold calculateVolumeScore
  cases hr : findRel s a b with
  | none => norm_num
  | some r =>
    dsimp only
    have hvp : (0:ℚ) ≤ (volumeRank s (r.totalVolume : ℚ) : ℚ) / (totalRel s : ℚ) := by positivity
    have hap : (0:ℚ) ≤
        (avgSizeRank s ((r.totalVolume : ℚ) / ((max r.transferCount 1 : Nat) : ℚ)) : ℚ)
          / (totalRel s : ℚ) := by positivity
    have h1 : (0:ℚ) ≤ min 40 ((volumeRank s (r.totalVolume : ℚ) : ℚ) / (totalRel s : ℚ) * 40) :=
      le_min (by norm_num) (by positivity)
    have h2 : (0:ℚ) ≤ min 30
        ((avgSizeRank s ((r.totalVolume : ℚ) / ((max r.transferCount 1 : Nat) : ℚ)) : ℚ)
          / (totalRel s : ℚ) * 30) :=
      le_min (by norm_num) (by positivity)
    constructor
    · apply le_min (by norm_num)
      split_ifs with hb
      · have h3 : (0:ℚ) ≤ min 30 ((r.totalVolume : ℚ) /
            (((findAccount s a).map (fun acc => (acc.balance : ℚ))).getD 0) * 100) :=
          le_min (by norm_num) (by positivity)
        linarith
      · linarith
    · exact min_le_left _ _

theorem frequencyScore_mem (s : Store) (a b : String) :
    0 ≤ (calculateFrequencyScore s a b).1 ∧ (calculateFrequencyScore s a b).1 ≤ 100 := by
  unfold calculateFrequencyScore
  cases hr : findRel s a b with
  | none =>
    cases pairTransfers s a b <;> norm_num
  | some r =>
    cases hp : pairTransfers s a b with
    | nil => norm_num
    | cons t ts =>
      dsimp only
      split_ifs with h0
      · norm_num
      · set d : Int := max ((maxTimestamp t ts - minTimestamp t ts).fdiv 86400 + 1) 1 with hd
        have hdpos : (0:ℚ) < (d : ℚ) := by
          have : (1:Int) ≤ d := le_max_right _ 1
          exact_mod_cast lt_of_lt_of_le Int.zero_lt_one this
        have h1 : (0:ℚ) ≤ min 40
            ((s.relationships.countP (fun q => decide (q.transferCount < r.transferCount)) : ℚ)
              / (totalRel s : ℚ) * 40) :=
          le_min (by norm_num) (by positivity)
        have h2 : (0:ℚ) ≤ min 30 (min 1 ((r.transferCount : ℚ) / (d:ℚ) / 10) * 30) := by
          apply le_min (by norm_num)
          have : (0:ℚ) ≤ min 1 ((r.transferCount : ℚ) / (d:ℚ) / 10) :=
            le_min (by norm_num) (by positivity)
          linarith
        have h3 : (0:ℚ) ≤ min 30 ((uniqueDays (t :: ts) : ℚ) / (d:ℚ) * 30) :=
          le_min (by norm_num) (by positivity)
        exact ⟨le_min (by norm_num) (by linarith), min_le_left _ _⟩

theorem foldl_max_timestamp_mono (l : List Transfer) :
    ∀ {x y : Int}, x ≤ y →
      l.foldl (fun m u => max m u.timestamp) x ≤ l.foldl (fun m u => max m u.timestamp) y := by
  induction l with
  | nil => intro x y h; simpa using h
  | cons u us ih => intro x y h; exact ih (max_le_max h le_rfl)

theorem minTimestamp_le_maxTimestamp (t : Transfer) (ts : List Transfer) :
    minTimestamp t ts ≤ maxTimestamp t ts := by
  unfold minTimestamp maxTimestamp
  induction ts generalizing t with
  | nil => exact le_rfl
  | cons u us ih =>
    calc (u :: us).foldl (fun m v => min m v.timestamp) t.timestamp
        = us.foldl (fun m v => min m v.timestamp) (min t.timestamp u.timestamp) := rfl
      _ ≤ us.foldl (fun m v => max m v.timestamp) (min t.timestamp u.timestamp) := by
          have := ih ⟨t.fromAddr, t.toAddr, t.value, min t.timestamp u.timestamp⟩
          simpa using this
      _ ≤ us.foldl (fun m v => max m v.timestamp) (max t.timestamp u.timestamp) :=
          foldl_max_timestamp_mono us
            (le_trans (min_le_left _ _) (le_max_left _ _))

theorem temporalScore_mem (s : Store) (now : Int) (a b : String) :
    0 ≤ (calculateTemporalScore s now a b).1 ∧ (calculateTemporalScore s now a b).1 ≤ 100 := by
  unfold calculateTemporalScore
  cases hr : findRel s a b with
  | none => cases pairTransfers s a b <;> norm_num
  | some r =>
    cases hp : pairTransfers s a b with
    | nil => norm_num
    | cons t ts =>
      dsimp only
      have hfl : minTimestamp t ts ≤ maxTimestamp t ts := minTimestamp_le_maxTimestamp t ts
      have hrd : (1 : Int) ≤ (maxTimestamp t ts - minTimestamp t ts).fdiv 86400 + 1 := by
        have h0 : (0 : Int) ≤ (maxTimestamp t ts - minTimestamp t ts).fdiv 86400 :=
          Int.fdiv_nonneg (by omega) (by norm_num)
        omega
      have hrdq : (0:ℚ) ≤ (((maxTimestamp t ts - minTimestamp t ts).fdiv 86400 + 1 : Int) : ℚ) := by
        exact_mod_cast le_trans (by norm_num : (0:Int) ≤ 1) hrd
      constructor
      · have hrec : (0:ℚ) ≤
            (if (now - maxTimestamp t ts).fdiv 86400 ≤ 1 then (40:ℚ)
             else if (now - maxTimestamp t ts).fdiv 86400 ≤ 7 then 35
             else if (now - maxTimestamp t ts).fdiv 86400 ≤ 30 then 25
             else if (now - maxTimestamp t ts).fdiv 86400 ≤ 90 then 15
             else if (now - maxTimestamp t ts).fdiv 86400 ≤ 365 then 5
             else 0) := by
          split_ifs <;> norm_num
        have hdur : (0:ℚ) ≤ min 30
            ((((maxTimestamp t ts - minTimestamp t ts).fdiv 86400 + 1 : Int) : ℚ) / 365 * 30) :=
          le_min (by norm_num) (by positivity)
        have hact : (0:ℚ) ≤
            (if 0 < r.transferCount then
              min 30 (((t :: ts).countP (fun u => decide (now - 7 * 86400 ≤ u.timestamp)) : ℚ)
                    / (r.transferCount : ℚ) * 15 +
                  ((t :: ts).countP (fun u => decide (now - 30 * 86400 ≤ u.timestamp)) : ℚ)
                    / (r.transferCount : ℚ) * 15)
             else 0) := by
          split_ifs with htc
          · have htcq : (0:ℚ) < (r.transferCount : ℚ) := by exact_mod_cast htc
            exact le_min (by norm_num) (by positivity)
          · exact le_rfl
        linarith
      · have hrec : (if (now - maxTimestamp t ts).fdiv 86400 ≤ 1 then (40:ℚ)
             else if (now - maxTimestamp t ts).fdiv 86400 ≤ 7 then 35
             else if (now - maxTimestamp t ts).fdiv 86400 ≤ 30 then 25
             else if (now - maxTimestamp t ts).fdiv 86400 ≤ 90 then 15
             else if (now - maxTimestamp t ts).fdiv 86400 ≤ 365 then 5
             else 0) ≤ 40 := by
          split_ifs <;> norm_num
        have hdur : min 30
            ((((maxTimestamp t ts - minTimestamp t ts).fdiv 86400 + 1 : Int) : ℚ) / 365 * 30)
            ≤ 30 := min_le_left _ _
        have hact : (if 0 < r.transferCount then
              min 30 (((t :: ts).countP (fun u => decide (now - 7 * 86400 ≤ u.timestamp)) : ℚ)
                    / (r.transferCount : ℚ) * 15 +
                  ((t :: ts).countP (fun u => decide (now - 30 * 86400 ≤ u.timestamp)) : ℚ)
                    / (r.transferCount : ℚ) * 15)
             else 0) ≤ 30 := by
          split_ifs
          · exact min_le_left _ _
          · norm_num
        linarith

theorem riskScore_mem (s : Store) (a b : String) :
    0 ≤ (calculateRiskScore s a b).1 ∧ (calculateRiskScore s a b).1 ≤ 100 := by
  unfold calculateRiskScore
  cases hr : findRel s a b with
  | none => norm_num
  | some r =>
    dsimp only
    have hd : (0:ℚ) < ((max r.transferCount 1 : Nat) : ℚ) := by
      have : (1:Nat) ≤ max r.transferCount 1 := le_max_right _ 1
      exact_mod_cast lt_of_lt_of_le Nat.zero_lt_one this
    have h1 : (0:ℚ) ≤ min 30 ((rapidTransfers s a b : ℚ) / ((max r.transferCount 1 : Nat) : ℚ) * 100) :=
      le_min (by norm_num) (by positivity)
    have h2 : (0:ℚ) ≤ min 25 ((roundNumbers s a b : ℚ) / ((max r.transferCount 1 : Nat) : ℚ) * 50) :=
      le_min (by norm_num) (by positivity)
    have h3 : (0:ℚ) ≤ min 25 ((unusualTime s a b : ℚ) / ((max r.transferCount 1 : Nat) : ℚ) * 50) :=
      le_min (by norm_num) (by positivity)
    have h4 : (0:ℚ) ≤ (newAccountFlag s b r.createdAt : ℚ) * 20 := by positivity
    exact ⟨le_min (by norm_num) (by linarith), min_le_left _ _⟩

theorem metricsLookup_nonneg {s : Store} (hwf : wfMetrics s = true) (x : String) :
    0 ≤ (metricsLookup s x).1 ∧ 0 ≤ (metricsLookup s x).2 := by
  unfold metricsLookup
  cases hf : s.metrics.find? (fun m => m.address == x) with
  | none => norm_num
  | some m =>
    have hm : m ∈ s.metrics := List.mem_of_find?_eq_some hf
    have := List.all_eq_true.mp hwf m hm
    simp only [Bool.and_eq_true, decide_eq_true_eq] at this
    exact this

theorem networkScoreSpec_mem {s : Store} (hwf : wfMetrics s = true) (a b : String) :
    0 ≤ (calculateNetworkScoreSpec s a b).1 ∧ (calculateNetworkScoreSpec s a b).1 ≤ 100 := by
  obtain ⟨hda, hpa⟩ := metricsLookup_nonneg hwf a
  obtain ⟨hdb, hpb⟩ := metricsLookup_nonneg hwf b
  unfold calculateNetworkScoreSpec
  dsimp only
  have h1 : (0:ℚ) ≤ min 40 ((commonConnections s a b : ℚ) * 5) :=
    le_min (by norm_num) (by positivity)
  have h2 : (0:ℚ) ≤ min 30 (((metricsLookup s a).1 + (metricsLookup s b).1) / 2 * 100) :=
    le_min (by norm_num) (by positivity)
  have h3 : (0:ℚ) ≤ min 30 (((metricsLookup s a).2 + (metricsLookup s b).2) / 2 * 1000) :=
    le_min (by norm_num) (by positivity)
  exact ⟨le_min (by norm_num) (by linarith), min_le_left _ _⟩

theorem baseScore_mem {s : Store} (hwf : wfMetrics s = true) (now : Int) (a b : String) :
    0 ≤ baseScore s now a b ∧ baseScore s now a b ≤ 100 := by
  obtain ⟨hv0, hv1⟩ := volumeScore_mem s a b
  obtain ⟨hf0, hf1⟩ := frequencyScore_mem s a b
  obtain ⟨ht0, ht1⟩ := temporalScore_mem s now a b
  obtain ⟨hn0, hn1⟩ := networkScoreSpec_mem hwf a b
  unfold baseScore weightVolume weightFrequency weightTemporal weightNetwork
  constructor <;> nlinarith

theorem riskMultiplier_mem (s : Store) (a b : String) :
    1 / 2 ≤ riskMultiplier s a b ∧ riskMultiplier s a b ≤ 1 := by
  obtain ⟨hr0, hr1⟩ := riskScore_mem s a b
  unfold riskMultiplier
  constructor <;> linarith

theorem totalScoreSpec_mem {s : Store} (hwf : wfMetrics s = true) (now : Int) (a b : String) :
    0 ≤ calculateTotalScoreSpec s now a b ∧ calculateTotalScoreSpec s now a b ≤ 100 := by
  obtain ⟨hb0, hb1⟩ := baseScore_mem hwf now a b
  obtain ⟨hm0, hm1⟩ := riskMultiplier_mem s a b
  unfold calculateTotalScoreSpec
  constructor
  · exact round2_nonneg (by nlinarith)
  · have hprod : baseScore s now a b * riskMultiplier s a b * 100 ≤ ((10000 : Int) : ℚ) := by
      push_cast
      nlinarith
    have := round2_le_intBound hprod
    norm_num at this
    linarith

/-- `countP` is strictly below the length as soon as one element fails the
predicate. -/
theorem countP_lt_length_of_mem {α : Type} {l : List α} {p : α → Bool} {x : α}
    (hx : x ∈ l) (hpx : p x = false) : l.countP p < l.length := by
  rcases lt_or_eq_of_le (List.countP_le_length p (l := l)) with h | h
  · exact h
  · exfalso
    have := List.countP_eq_length.mp h x hx
    rw [hpx] at this
    exact Bool.false_ne_true this

theorem observe_foldl_writeStep (l : List Metric) :
    ∀ d : DBState, observe (l.foldl writeStep d) = observe d := by
  induction l with
  | nil => intro d; rfl
  | cons m ms ih => intro d; exact ih (writeStep d m)

theorem observe_engineSteps (writes : List Metric) (k : Nat) (d : DBState) :
    observe (engineSteps writes k d) = observe d :=
  observe_foldl_writeStep (writes.take k) d

/-! ### Lemmas about the `total_volume` perturbation -/

theorem setVolumeRows_length (l : List Rel) (a b : String) (v : Nat) :
    (setVolumeRows l a b v).length = l.length := by
  induction l with
  | nil => rfl
  | cons r rs ih =>
    unfold setVolumeRows
    split_ifs <;> simp [ih]

theorem setVolumeRows_of_none {l : List Rel} {a b : String}
    (h : l.find? (fun r => r.fromAddr == a && r.toAddr == b) = none) (v : Nat) :
    setVolumeRows l a b v = l := by
  induction l with
  | nil => rfl
  | cons r rs ih =>
    rw [List.find?_cons] at h
    unfold setVolumeRows
    cases hm : (r.fromAddr == a && r.toAddr == b) with
    | true => rw [hm] at h; simp at h
    | false =>
      rw [hm] at h
      simp only [hm, Bool.false_eq_true, if_false]
      rw [ih h]

theorem find?_setVolumeRows {l : List Rel} {a b : String} {r : Rel}
    (h : l.find? (fun r => r.fromAddr == a && r.toAddr == b) = some r) (v : Nat) :
    (setVolumeRows l a b v).find? (fun r => r.fromAddr == a && r.toAddr == b)
      = some { r with totalVolume := v } := by
  induction l with
  | nil => simp at h
  | cons q qs ih =>
    rw [List.find?_cons] at h
    unfold setVolumeRows
    cases hm : (q.fromAddr == a && q.toAddr == b) with
    | true =>
      rw [hm] at h
      simp only [hm, if_true]
      simp only at h
      rw [List.find?_cons]
      have hm' : ({ q with totalVolume := v } : Rel).fromAddr == a
          && ({ q with totalVolume := v } : Rel).toAddr == b := hm
      rw [hm']
      rw [Option.some_inj] at h
      rw [h]
    | false =>
      rw [hm] at h
      simp only at h
      simp only [hm, Bool.false_eq_true, if_false]
      rw [List.find?_cons, hm]
      exact ih h

theorem countP_setVolumeRows_mono (l : List Rel) (a b : String) {v w : Nat} (h : v ≤ w) :
    (setVolumeRows l a b v).countP (fun r => decide ((r.totalVolume : ℚ) < (v : ℚ)))
      ≤ (setVolumeRows l a b w).countP (fun r => decide ((r.totalVolume : ℚ) < (w : ℚ))) := by
  have hmono : ∀ rs : List Rel,
      rs.countP (fun r => decide ((r.totalVolume : ℚ) < (v : ℚ)))
        ≤ rs.countP (fun r => decide ((r.totalVolume : ℚ) < (w : ℚ))) := by
    intro rs
    apply List.countP_mono_left
    intro q _ hq
    simp only [decide_eq_true_eq] at hq ⊢
    have : ((v : ℚ)) ≤ (w : ℚ) := by exact_mod_cast h
    linarith
  induction l with
  | nil => simp [setVolumeRows]
  | cons q qs ih =>
    unfold setVolumeRows
    split_ifs with hmatch
    · simp only [List.countP_cons]
      have hfalse : (decide (((v : Nat) : ℚ) < (v : ℚ))) = false := by simp
      have hfalse' : (decide (((w : Nat) : ℚ) < (w : ℚ))) = false := by simp
      simp only [hfalse, hfalse']
      simpa using hmono qs

    · simp only [List.countP_cons]
      have hq : (if decide ((q.totalVolume : ℚ) < (v : ℚ)) = true then 1 else 0)
          ≤ (if decide ((q.totalVolume : ℚ) < (w : ℚ)) = true then 1 else 0) := by
        split_ifs with h1 h2 <;> try omega
        · exfalso
          simp only [decide_eq_true_eq] at h1 h2
          have : ((v : ℚ)) ≤ (w : ℚ) := by exact_mod_cast h
          exact h2 (by linarith)
      omega

/-! ### The common-connections query -/

theorem hasEdge_iff {s : Store} {x y : String} :
    hasEdge s x y = true ↔ ∃ r ∈ s.relationships, r.fromAddr = x ∧ r.toAddr = y := by
  unfold hasEdge
  simp [List.any_eq_true, Bool.and_eq_true, beq_iff_eq]

theorem mem_relAddresses {s : Store} {x : String} :
    x ∈ relAddresses s ↔ ∃ r ∈ s.relationships, r.fromAddr = x ∨ r.toAddr = x := by
  unfold relAddresses
  simp only [List.mem_dedup, List.mem_flatMap, List.mem_cons, List.mem_singleton,
    List.not_mem_nil, or_false]
  constructor
  · rintro ⟨r, hm, h | h⟩ <;> exact ⟨r, hm, by simp [h]⟩
  · rintro ⟨r, hm, h | h⟩ <;> exact ⟨r, hm, by simp [h]⟩

theorem mem_commonConnectionValues {s : Store} {a b x : String} (hab : a ≠ b) :
    x ∈ commonConnectionValues s a b ↔
      (∃ r1 ∈ s.relationships, r1.fromAddr = a ∧ r1.toAddr = x) ∧
      (∃ r2 ∈ s.relationships, r2.fromAddr = x ∧ r2.toAddr = b) := by
  unfold commonConnectionValues
  simp only [List.mem_flatMap, List.mem_filterMap, List.mem_filter, beq_iff_eq]
  constructor
  · rintro ⟨r1, ⟨h1m, h1a⟩, r2, ⟨h2m, h2b⟩, hval⟩
    split_ifs at hval with hc1 hc2
    · rw [Option.some_inj] at hval
      refine ⟨⟨r1, h1m, h1a, hval⟩, ⟨r2, h2m, ?_, h2b⟩⟩
      rw [← hc1]
      exact hval
    · exfalso
      apply hab
      rw [← h1a, ← h2b]
      exact hc2
  · rintro ⟨⟨r1, h1m, h1a, h1x⟩, ⟨r2, h2m, h2x, h2b⟩⟩
    refine ⟨r1, ⟨h1m, h1a⟩, r2, ⟨h2m, h2b⟩, ?_⟩
    rw [if_pos (show r1.toAddr = r2.fromAddr by rw [h1x, h2x]), Option.some_inj]
    exact h1x

theorem commonConnections_eq_forward {s : Store} {a b : String} (hab : a ≠ b) :
    commonConnections s a b = forwardCommonConnections s a b := by
  unfold commonConnections forwardCommonConnections
  rw [← List.card_toFinset]
  have hnodup : ((relAddresses s).filter
      (fun x => hasEdge s a x && hasEdge s x b)).Nodup :=
    (List.nodup_dedup _).filter _
  rw [← List.toFinset_card_of_nodup hnodup]
  congr 1
  ext x
  simp only [List.mem_toFinset, List.mem_filter, Bool.and_eq_true]
  rw [mem_commonConnectionValues hab]
  constructor
  · rintro ⟨⟨r1, h1m, h1a, h1x⟩, ⟨r2, h2m, h2x, h2b⟩⟩
    refine ⟨mem_relAddresses.mpr ⟨r1, h1m, Or.inr h1x⟩, ?_, ?_⟩
    · exact hasEdge_iff.mpr ⟨r1, h1m, h1a, h1x⟩
    · exact hasEdge_iff.mpr ⟨r2, h2m, h2x, h2b⟩
  · rintro ⟨_, h1, h2⟩
    exact ⟨hasEdge_iff.mp h1, hasEdge_iff.mp h2⟩

/-! ### The new-account flag -/

theorem newAccountFlag_eq_one_iff (s : Store) (b : String) (c : Option Int) :
    newAccountFlag s b c = 1 ↔
      ∃ acc, findAccount s b = some acc ∧
        ∃ t, c = some t ∧ (t - acc.createdAt).fdiv 86400 < 7 := by
  unfold newAccountFlag
  cases hacc : findAccount s b with
  | none => cases c <;> simp
  | some acc =>
    cases c with
    | none => simp
    | some t =>
      dsimp only
      split_ifs with hd
      · simp [hd]
      · simp [hd]

theorem newAccountFlag_zero_or_one (s : Store) (b : String) (c : Option Int) :
    newAccountFlag s b c = 0 ∨ newAccountFlag s b c = 1 := by
  unfold newAccountFlag
  cases findAccount s b with
  | none => exact Or.inl rfl
  | some acc =>
    cases c with
    | none => exact Or.inl rfl
    | some t =>
      dsimp only
      split_ifs
      · exact Or.inr rfl
      · exact Or.inl rfl

theorem newAccountFlag_of_none_acct {s : Store} {b : String}
    (h : findAccount s b = none) (c : Option Int) : newAccountFlag s b c = 0 := by
  unfold newAccountFlag
  rw [h]

theorem newAccountFlag_of_none_rel (s : Store) (b : String) :
    newAccountFlag s b none = 0 := by
  unfold newAccountFlag
  cases findAccount s b <;> rfl

/-! ### Concrete stores used by witnesses and counterexamples -/

/-- The empty store. -/
def emptyStore : Store :=
  { accounts := [], relationships := [], transfers := [], metrics := [] }

/-- Two relationship rows `A→X` and `X→B` and no `(A,B)` row: the pair
`(A,B)` has a common connection but no relationship row. -/
def storeAXB : Store :=
  { accounts := []
    relationships := [⟨"A", "X", 1, 1, none⟩, ⟨"X", "B", 1, 1, none⟩]
    transfers := []
    metrics := [] }

/-- A store whose only `(A,B)` relationship row has `total_volume = 0`,
`transfer_count = 0`, a sender balance of `5`, and a single transfer 400
days before `nowRef` — its base score is `0.2 · 30/365 = 6/365`. -/
def storeTiny : Store :=
  { accounts := [⟨"A", 5, 0⟩]
    relationships := [⟨"A", "B", 0, 0, none⟩]
    transfers := [⟨"A", "B", 7, 8683200⟩]
    metrics := [] }

/-- The evaluation time used with `storeTiny`: day 500, noon. -/
def nowRef : Int := 43243200

/-- Relationship rows `X→A` and `B→X` only: a reverse-direction
intermediary for the pair `(A,B)`. -/
def storeRev : Store :=
  { accounts := []
    relationships := [⟨"X", "A", 1, 1, none⟩, ⟨"B", "X", 1, 1, none⟩]
    transfers := []
    metrics := [] }

/-- Subject row `(A,B)` with volume 10, count 1, and a second row `(C,D)`
with volume 5 and `transfer_count = 0`. -/
def storeZeroCnt : Store :=
  { accounts := []
    relationships := [⟨"A", "B", 10, 1, none⟩, ⟨"C", "D", 5, 0, none⟩]
    transfers := []
    metrics := [] }

/-- Account `B` created at time 1000; the `(A,B)` relationship first seen
at 500, i.e. before the account's creation. -/
def storeNewAcct : Store :=
  { accounts := [⟨"B", 0, 1000⟩]
    relationships := [⟨"A", "B", 1, 1, some 500⟩]
    transfers := []
    metrics := [] }

/-! ### Claims -/

/-- **C1** (amended).  When no `account_relationships` row exists for the
ordered pair: the volume, frequency, temporal and risk scorers each return
score `0.0` with an empty details record; the network scorer performs no
such check — as written it raises its malformed-query error instead of
returning a score, so the aggregator propagates an error rather than
returning `total_score = 0.0`; on the pipeline whose metrics lookup is
modelled from the spec, the total equals `round(network_score × 0.30, 2)`,
which need not be `0`. -/
theorem claim_C1 (s : Store) (now : Int) (a b : String)
    (h : findRel s a b = none) :
    calculateVolumeScore s a b = (0, none) ∧
    calculateFrequencyScore s a b = (0, none) ∧
    calculateTemporalScore s now a b = (0, none) ∧
    calculateRiskScore s a b = (0, none) ∧
    (∃ e, calculateNetworkScoreRun s a b = Except.error e) ∧
    (∃ e, calculateTotalScoreRun s now a b = Except.error e) ∧
    calculateTotalScoreSpec s now a b
      = round2 ((calculateNetworkScoreSpec s a b).1 * weightNetwork) := by
  have hv : calculateVolumeScore s a b = (0, none) := by
    unfold calculateVolumeScore; rw [h]
  have hf : calculateFrequencyScore s a b = (0, none) := by
    unfold calculateFrequencyScore; rw [h]
  have ht : calculateTemporalScore s now a b = (0, none) := by
    unfold calculateTemporalScore; rw [h]
  have hr : calculateRiskScore s a b = (0, none) := by
    unfold calculateRiskScore; rw [h]
  refine ⟨hv, hf, ht, hr, ⟨_, rfl⟩, ⟨_, rfl⟩, ?_⟩
  unfold calculateTotalScoreSpec baseScore riskMultiplier
  rw [hv, hf, ht, hr]
  norm_num

/-- **C1** is false as stated: on `storeAXB` the pair `(A,B)` has no
relationship row, yet the network scorer raises rather than returning
`(0.0, {})` — and even the spec-modelled network score is `5`, not `0`,
making the spec-modelled total `1.5`, not `0.0`. -/
theorem claim_C1_counterexample :
    findRel storeAXB "A" "B" = none ∧
    (∃ e, calculateNetworkScoreRun storeAXB "A" "B" = Except.error e) ∧
    (calculateNetworkScoreSpec storeAXB "A" "B").1 = 5 ∧
    calculateTotalScoreSpec storeAXB 0 "A" "B" = 3 / 2 := by
  have hrel : findRel storeAXB "A" "B" = none := by decide
  have hcc : commonConnections storeAXB "A" "B" = 1 := by decide
  have hma : metricsLookup storeAXB "A" = (0, 0) := by decide
  have hmb : metricsLookup storeAXB "B" = (0, 0) := by decide
  have hnet : (calculateNetworkScoreSpec storeAXB "A" "B").1 = 5 := by
    norm_num [calculateNetworkScoreSpec, hcc, hma, hmb]
  have hv : calculateVolumeScore storeAXB "A" "B" = (0, none) := by
    unfold calculateVolumeScore; rw [hrel]
  have hf : calculateFrequencyScore storeAXB "A" "B" = (0, none) := by
    unfold calculateFrequencyScore; rw [hrel]
  have ht : calculateTemporalScore storeAXB 0 "A" "B" = (0, none) := by
    unfold calculateTemporalScore; rw [hrel]
  have hr : calculateRiskScore storeAXB "A" "B" = (0, none) := by
    unfold calculateRiskScore; rw [hrel]
  refine ⟨hrel, ⟨_, rfl⟩, hnet, ?_⟩
  unfold calculateTotalScoreSpec baseScore riskMultiplier
  rw [hv, hf, ht, hr, hnet]
  norm_num [weightNetwork, round2, roundHalfEven]

/-- Witness for `claim_C1` at the empty store. -/
theorem claim_C1_witness :
    calculateVolumeScore emptyStore "A" "B" = (0, none) ∧
    calculateRiskScore emptyStore "A" "B" = (0, none) ∧
    (∃ e, calculateNetworkScoreRun emptyStore "A" "B" = Except.error e) := by
  obtain ⟨h1, _, _, h4, h5, _⟩ := claim_C1 emptyStore 0 "A" "B" (by decide)
  exact ⟨h1, h4, h5⟩

/-- **C2** (amended).  `total_score = round(base_score × risk_multiplier, 2)`
with `risk_multiplier ∈ [0.5, 1]`, so before rounding the product never
exceeds `base_score`; the rounding, however, can add up to half a cent, so
the guarantee that actually holds is `total_score ≤ base_score + 1/200`. -/
theorem claim_C2 (s : Store) (now : Int) (a b : String)
    (hwf : wfMetrics s = true) :
    calculateTotalScoreSpec s now a b ≤ baseScore s now a b + 1 / 200 := by
  obtain ⟨hb0, _⟩ := baseScore_mem hwf now a b
  obtain ⟨_, hm1⟩ := riskMultiplier_mem s a b
  have hprod : baseScore s now a b * riskMultiplier s a b ≤ baseScore s now a b := by
    nlinarith
  have := round2_le_add (baseScore s now a b * riskMultiplier s a b)
  unfold calculateTotalScoreSpec
  linarith

/-- **C2** is false as stated: on `storeTiny` the base score is `6/365 ≈
0.0164` and the risk multiplier is `1`, and rounding to two decimals
yields `total_score = 0.02 > base_score`. -/
theorem claim_C2_counterexample :
    baseScore storeTiny nowRef "A" "B" < calculateTotalScoreSpec storeTiny nowRef "A" "B" := by
  have hv : (calculateVolumeScore storeTiny "A" "B").1 = 0 := by
    norm_num [calculateVolumeScore, findRel, findAccount, volumeRank, avgSizeRank, totalRel,
      storeTiny]
  have hf : (calculateFrequencyScore storeTiny "A" "B").1 = 0 := by
    norm_num [calculateFrequencyScore, findRel, pairTransfers, storeTiny]
  have ht : (calculateTemporalScore storeTiny nowRef "A" "B").1 = 30 / 365 := by
    norm_num [calculateTemporalScore, findRel, pairTransfers, minTimestamp, maxTimestamp,
      storeTiny, nowRef, Int.fdiv]
  have hn : (calculateNetworkScoreSpec storeTiny "A" "B").1 = 0 := by
    have hc : commonConnections storeTiny "A" "B" = 0 := by decide
    have hm : metricsLookup storeTiny "A" = (0, 0) := by decide
    have hm2 : metricsLookup storeTiny "B" = (0, 0) := by decide
    norm_num [calculateNetworkScoreSpec, hc, hm, hm2]
  have hr : (calculateRiskScore storeTiny "A" "B").1 = 0 := by
    have h1 : findRel storeTiny "A" "B" = some ⟨"A", "B", 0, 0, none⟩ := by decide
    have h2 : rapidTransfers storeTiny "A" "B" = 0 := by decide
    have h3 : roundNumbers storeTiny "A" "B" = 0 := by decide
    have h4 : unusualTime storeTiny "A" "B" = 0 := by decide
    have h5 : newAccountFlag storeTiny "B" none = 0 := by decide
    norm_num [calculateRiskScore, h1, h2, h3, h4, h5]
  have hb : baseScore storeTiny nowRef "A" "B" = 6 / 365 := by
    rw [baseScore, hv, hf, ht, hn]
    norm_num [weightVolume, weightFrequency, weightTemporal, weightNetwork]
  have hm : riskMultiplier storeTiny "A" "B" = 1 := by
    rw [riskMultiplier, hr]; norm_num
  have htot : calculateTotalScoreSpec storeTiny nowRef "A" "B" = 1 / 50 := by
    rw [calculateTotalScoreSpec, hb, hm]
    norm_num [round2, roundHalfEven]
  rw [hb, htot]
  norm_num

/-- Witness for `claim_C2` at `storeTiny`. -/
theorem claim_C2_witness :
    calculateTotalScoreSpec storeTiny nowRef "A" "B"
      ≤ baseScore storeTiny nowRef "A" "B" + 1 / 200 :=
  claim_C2 storeTiny nowRef "A" "B" rfl

/-- **C3** (amended).  For a requested pair with `a ≠ b`, the
common-connections count of the network scorer equals the number of
distinct intermediaries `X` with an edge `a→X` and an edge `X→b` — the
forward direction only; the query's second `CASE`/`WHERE` branch compares
`r1.from_address` with `r2.to_address`, i.e. `a` with `b`, and never
matches a reverse-direction intermediary. -/
theorem claim_C3 (s : Store) (a b : String) (hab : a ≠ b) :
    commonConnections s a b = forwardCommonConnections s a b :=
  commonConnections_eq_forward hab

/-- **C3** is false as stated: on `storeRev` the intermediary `X` has
`X→A` and `B→X`, so the claim's formula counts it (`specCommonConnections
= 1`), but the code counts nothing. -/
theorem claim_C3_counterexample :
    commonConnections storeRev "A" "B" = 0 ∧
    specCommonConnections storeRev "A" "B" = 1 := by
  constructor <;> decide

/-- Witness for `claim_C3` on `storeAXB`. -/
theorem claim_C3_witness :
    commonConnections storeAXB "A" "B" = forwardCommonConnections storeAXB "A" "B" :=
  claim_C3 storeAXB "A" "B" (by decide)

/-- **C4**.  The volume, frequency, temporal and risk scores all lie in
`[0,100]` (the temporal score because its three components are capped at
40, 30 and 30), and on the spec-modelled pipeline with a well-formed
metrics table so do the network score and the total score; the network
scorer as written, however, raises its malformed-query error instead of
returning any score. -/
theorem claim_C4 (s : Store) (now : Int) (a b : String)
    (hwf : wfMetrics s = true) :
    (0 ≤ (calculateVolumeScore s a b).1 ∧ (calculateVolumeScore s a b).1 ≤ 100) ∧
    (0 ≤ (calculateFrequencyScore s a b).1 ∧ (calculateFrequencyScore s a b).1 ≤ 100) ∧
    (0 ≤ (calculateTemporalScore s now a b).1 ∧ (calculateTemporalScore s now a b).1 ≤ 100) ∧
    (0 ≤ (calculateRiskScore s a b).1 ∧ (calculateRiskScore s a b).1 ≤ 100) ∧
    (0 ≤ (calculateNetworkScoreSpec s a b).1 ∧ (calculateNetworkScoreSpec s a b).1 ≤ 100) ∧
    (0 ≤ calculateTotalScoreSpec s now a b ∧ calculateTotalScoreSpec s now a b ≤ 100) ∧
    (∃ e, calculateNetworkScoreRun s a b = Except.error e) :=
  ⟨volumeScore_mem s a b, frequencyScore_mem s a b, temporalScore_mem s now a b,
    riskScore_mem s a b, networkScoreSpec_mem hwf a b, totalScoreSpec_mem hwf now a b,
    ⟨_, rfl⟩⟩

/-- Witness for `claim_C4` at `storeTiny`. -/
theorem claim_C4_witness :
    (0 ≤ (calculateTemporalScore storeTiny nowRef "A" "B").1 ∧
      (calculateTemporalScore storeTiny nowRef "A" "B").1 ≤ 100) ∧
    (0 ≤ calculateTotalScoreSpec storeTiny nowRef "A" "B" ∧
      calculateTotalScoreSpec storeTiny nowRef "A" "B" ≤ 100) := by
  obtain ⟨_, _, h3, _, _, h6, _⟩ := claim_C4 storeTiny nowRef "A" "B" rfl
  exact ⟨h3, h6⟩

/-- **C5**.  The aggregator's `risk_multiplier` equals
`1 − risk_score/200`, lies in `[0.5, 1.0]`, and hits `1.0` at
`risk_score = 0` and `0.5` at `risk_score = 100`. -/
theorem claim_C5 (s : Store) (a b : String) :
    riskMultiplier s a b = 1 - (calculateRiskScore s a b).1 / 200 ∧
    1 / 2 ≤ riskMultiplier s a b ∧ riskMultiplier s a b ≤ 1 ∧
    ((calculateRiskScore s a b).1 = 0 → riskMultiplier s a b = 1) ∧
    ((calculateRiskScore s a b).1 = 100 → riskMultiplier s a b = 1 / 2) := by
  obtain ⟨h0, h1⟩ := riskMultiplier_mem s a b
  refine ⟨rfl, h0, h1, ?_, ?_⟩ <;> intro h <;> unfold riskMultiplier <;> rw [h] <;> norm_num

/-- Witness for `claim_C5` at `storeTiny`. -/
theorem claim_C5_witness :
    1 / 2 ≤ riskMultiplier storeTiny "A" "B" ∧ riskMultiplier storeTiny "A" "B" ≤ 1 :=
  ⟨(claim_C5 storeTiny "A" "B").2.1, (claim_C5 storeTiny "A" "B").2.2.1⟩

/-- **C6** (amended).  For a pair whose relationship row exists: the volume
percentile is exactly `count(total_volume values strictly below) /
max(population size, 1)` over all rows including the subject's, and both
percentiles lie in `[0,1)`; the average-size percentile, however, compares
population rows by `total_volume / transfer_count` with rows of
`transfer_count = 0` never counted as strictly less (`NULLIF` makes their
value `NULL`), while they do stay in the denominator — so the code's
strictly-less count is at most the spec's
(`total_volume / max(transfer_count, 1)`) count, and can be smaller. -/
theorem claim_C6 (s : Store) (a b : String) (r : Rel)
    (h : findRel s a b = some r) :
    ∃ d, (calculateVolumeScore s a b).2 = some d ∧
      d.volumePercentile = (volumeRank s (r.totalVolume : ℚ) : ℚ) / (totalRel s : ℚ) ∧
      d.avgSizePercentile = (avgSizeRank s d.avgTransferSize : ℚ) / (totalRel s : ℚ) ∧
      0 ≤ d.volumePercentile ∧ d.volumePercentile < 1 ∧
      0 ≤ d.avgSizePercentile ∧ d.avgSizePercentile < 1 ∧
      avgSizeRank s d.avgTransferSize ≤ specAvgSizeRank s d.avgTransferSize := by
  have hmem : r ∈ s.relationships := by
    unfold findRel at h
    exact List.mem_of_find?_eq_some h
  have hn : 1 ≤ s.relationships.length :=
    Nat.one_le_iff_ne_zero.mpr (by
      intro hlen
      rw [List.length_eq_zero] at hlen
      rw [hlen] at hmem
      simp at hmem)
  have htot : totalRel s = s.relationships.length := by
    unfold totalRel
    exact Nat.max_eq_left hn
  have htotq : (0:ℚ) < (totalRel s : ℚ) := by
    rw [htot]
    exact_mod_cast lt_of_lt_of_le Nat.zero_lt_one hn
  have hvrank : volumeRank s (r.totalVolume : ℚ) < s.relationships.length := by
    apply countP_lt_length_of_mem hmem
    simp
  set avg : ℚ := (r.totalVolume : ℚ) / ((max r.transferCount 1 : Nat) : ℚ) with havg
  have harank : avgSizeRank s avg < s.relationships.length := by
    apply countP_lt_length_of_mem hmem
    by_cases hc : r.transferCount = 0
    · simp [hc]
    · have hmax : max r.transferCount 1 = r.transferCount :=
        Nat.max_eq_left (Nat.one_le_iff_ne_zero.mpr hc)
      rw [havg, hmax]
      simp
  have hspec : avgSizeRank s avg ≤ specAvgSizeRank s avg := by
    unfold avgSizeRank specAvgSizeRank
    apply List.countP_mono_left
    intro q _ hq
    simp only [decide_eq_true_eq] at hq ⊢
    obtain ⟨hq0, hqlt⟩ := hq
    have hmax : max q.transferCount 1 = q.transferCount :=
      Nat.max_eq_left (Nat.one_le_iff_ne_zero.mpr hq0)
    rw [hmax]
    exact hqlt
  unfold calculateVolumeScore
  rw [h]
  refine ⟨_, rfl, rfl, rfl, by positivity, ?_, by positivity, ?_, hspec⟩
  · rw [div_lt_one htotq, htot]
    exact_mod_cast hvrank
  · rw [div_lt_one htotq, htot]
    exact_mod_cast harank

/-- **C6** is false as stated: on `storeZeroCnt` the subject's average
transfer size is `10` and the population row `(C,D)` has
`total_volume/max(transfer_count,1) = 5 < 10`, so the claim's formula
gives percentile `1/2`; the code's `NULLIF` never counts the
`transfer_count = 0` row, giving `0`. -/
theorem claim_C6_counterexample :
    avgSizeRank storeZeroCnt 10 = 0 ∧
    specAvgSizeRank storeZeroCnt 10 = 1 ∧
    (avgSizeRank storeZeroCnt 10 : ℚ) / (totalRel storeZeroCnt : ℚ) = 0 ∧
    (specAvgSizeRank storeZeroCnt 10 : ℚ) / (totalRel storeZeroCnt : ℚ) = 1 / 2 ∧
    (∃ d, (calculateVolumeScore storeZeroCnt "A" "B").2 = some d ∧
      d.avgTransferSize = 10 ∧ d.avgSizePercentile = 0) := by
  have h1 : avgSizeRank storeZeroCnt 10 = 0 := by
    norm_num [avgSizeRank, storeZeroCnt, List.countP_cons, List.countP_nil]
  have h2 : specAvgSizeRank storeZeroCnt 10 = 1 := by
    norm_num [specAvgSizeRank, storeZeroCnt, List.countP_cons, List.countP_nil]
  have htot : totalRel storeZeroCnt = 2 := by decide
  have hfind : findRel storeZeroCnt "A" "B" = some ⟨"A", "B", 10, 1, none⟩ := by decide
  refine ⟨h1, h2, by rw [h1, htot]; norm_num, by rw [h2, htot]; norm_num, ?_⟩
  unfold calculateVolumeScore
  rw [hfind]
  have havg : ((10 : Nat) : ℚ) / ((max (1:Nat) 1 : Nat) : ℚ) = 10 := by norm_num
  refine ⟨_, rfl, havg, ?_⟩
  dsimp only
  rw [havg, h1, htot]
  norm_num

/-- Witness for `claim_C6` at `storeZeroCnt`. -/
theorem claim_C6_witness :
    ∃ d, (calculateVolumeScore storeZeroCnt "A" "B").2 = some d ∧
      d.volumePercentile
        = (volumeRank storeZeroCnt ((10:Nat) : ℚ) : ℚ) / (totalRel storeZeroCnt : ℚ) ∧
      d.avgSizePercentile
        = (avgSizeRank storeZeroCnt d.avgTransferSize : ℚ) / (totalRel storeZeroCnt : ℚ) ∧
      0 ≤ d.volumePercentile ∧ d.volumePercentile < 1 ∧
      0 ≤ d.avgSizePercentile ∧ d.avgSizePercentile < 1 ∧
      avgSizeRank storeZeroCnt d.avgTransferSize
        ≤ specAvgSizeRank storeZeroCnt d.avgTransferSize :=
  claim_C6 storeZeroCnt "A" "B" ⟨"A", "B", 10, 1, none⟩ (by decide)

/-- **C7**.  Raising the `(a,b)` row's `total_volume` (everything else
fixed) never decreases the `volume_component`; and for an existing row the
pipeline's reported `volume_component` is exactly `volumeComponentOf`. -/
theorem claim_C7 (s : Store) (a b : String) (v w : Nat) (hvw : v ≤ w) :
    volumeComponentOf (setVolume s a b v) a b ≤ volumeComponentOf (setVolume s a b w) a b ∧
    (∀ r, findRel s a b = some r →
      ∃ d, (calculateVolumeScore s a b).2 = some d ∧
        d.volumeComponent = volumeComponentOf s a b) := by
  constructor
  · cases hfind : s.relationships.find? (fun r => r.fromAddr == a && r.toAddr == b) with
    | none =>
      unfold setVolume
      rw [setVolumeRows_of_none hfind v, setVolumeRows_of_none hfind w]
    | some r =>
      have hfv := find?_setVolumeRows hfind v
      have hfw := find?_setVolumeRows hfind w
      unfold volumeComponentOf findRel setVolume
      dsimp only
      rw [hfv, hfw]
      dsimp only
      unfold volumeRank totalRel
      dsimp only
      rw [setVolumeRows_length, setVolumeRows_length]
      have hrank := countP_setVolumeRows_mono s.relationships a b hvw
      have htotq : (0:ℚ) < ((max s.relationships.length 1 : Nat) : ℚ) := by
        have : (1:Nat) ≤ max s.relationships.length 1 := le_max_right _ 1
        exact_mod_cast lt_of_lt_of_le Nat.zero_lt_one this
      apply min_le_min le_rfl
      apply mul_le_mul_of_nonneg_right _ (by norm_num : (0:ℚ) ≤ 40)
      gcongr
  · intro r hr
    unfold calculateVolumeScore volumeComponentOf
    rw [hr]
    exact ⟨_, rfl, rfl⟩

/-- Witness for `claim_C7` on `storeZeroCnt` with `1 ≤ 12`. -/
theorem claim_C7_witness :
    volumeComponentOf (setVolume storeZeroCnt "A" "B" 1) "A" "B"
      ≤ volumeComponentOf (setVolume storeZeroCnt "A" "B" 12) "A" "B" :=
  (claim_C7 storeZeroCnt "A" "B" 1 12 (by norm_num)).1

/-- **C8**.  With the store state and the evaluation time (and, for the
engine, the library-computed metrics) held fixed, recomputing the full
`RelationshipScore` yields identical sub-scores, total and details, and
re-running the Centrality Engine produces identical per-account rows: in
the embedding every computation is a pure function of those inputs. -/
theorem claim_C8 (s1 s2 : Store) (now : Int) (a b : String)
    (lib1 lib2 : String → ℚ × ℚ × ℚ × ℚ) (h : s1 = s2) (hlib : lib1 = lib2) :
    calculateVolumeScore s1 a b = calculateVolumeScore s2 a b ∧
    calculateFrequencyScore s1 a b = calculateFrequencyScore s2 a b ∧
    calculateTemporalScore s1 now a b = calculateTemporalScore s2 now a b ∧
    calculateNetworkScoreSpec s1 a b = calculateNetworkScoreSpec s2 a b ∧
    calculateRiskScore s1 a b = calculateRiskScore s2 a b ∧
    calculateTotalScoreSpec s1 now a b = calculateTotalScoreSpec s2 now a b ∧
    engineWrites s1.relationships lib1 now = engineWrites s2.relationships lib2 now ∧
    updateNetworkMetricsRun s1 lib1 now none = updateNetworkMetricsRun s2 lib2 now none := by
  subst h
  subst hlib
  exact ⟨rfl, rfl, rfl, rfl, rfl, rfl, rfl, rfl⟩

/-- Witness for `claim_C8` at `storeTiny`. -/
theorem claim_C8_witness :
    calculateTotalScoreSpec storeTiny nowRef "A" "B"
      = calculateTotalScoreSpec storeTiny nowRef "A" "B" :=
  (claim_C8 storeTiny storeTiny nowRef "A" "B"
    (fun _ => (0, 0, 0, 0)) (fun _ => (0, 0, 0, 0)) rfl rfl).2.2.2.2.2.1

/-- **C9**.  However many upserts an engine run has performed, until the
final `conn.commit()` a concurrent reader still observes the prior
`account_network_metrics` snapshot unchanged; a run that fails after `k`
upserts never commits, surfaces the error to the caller (the source
installs no handler), and leaves the observed snapshot equal to the
original. -/
theorem claim_C9 (s : Store) (lib : String → ℚ × ℚ × ℚ × ℚ) (now : Int) (k : Nat) :
    observe (engineSteps (engineWrites s.relationships lib now) k ⟨s.metrics, s.metrics⟩)
      = s.metrics ∧
    (∃ e, updateNetworkMetricsRun s lib now (some k) = Except.error e) ∧
    (∀ d, updateNetworkMetricsRun s lib now none = Except.ok d →
      d.committed = (engineSteps (engineWrites s.relationships lib now)
        (engineWrites s.relationships lib now).length ⟨s.metrics, s.metrics⟩).tx) := by
  refine ⟨observe_engineSteps _ k _, ⟨_, rfl⟩, ?_⟩
  intro d hd
  unfold updateNetworkMetricsRun at hd
  rw [Except.ok.injEq] at hd
  rw [← hd]
  rfl

/-- Witness for `claim_C9` on `storeTiny` after one uncommitted upsert. -/
theorem claim_C9_witness :
    observe (engineSteps (engineWrites storeTiny.relationships (fun _ => (0, 0, 0, 0)) 0) 1
        ⟨storeTiny.metrics, storeTiny.metrics⟩) = storeTiny.metrics ∧
    (∃ e, updateNetworkMetricsRun storeTiny (fun _ => (0, 0, 0, 0)) 0 (some 1)
        = Except.error e) :=
  ⟨(claim_C9 storeTiny (fun _ => (0, 0, 0, 0)) 0 1).1,
    (claim_C9 storeTiny (fun _ => (0, 0, 0, 0)) 0 1).2.1⟩

/-- **C10**.  Inside the risk scorer, `new_account_risk = 20` exactly when
the receiving account's row exists, the relationship row's `created_at` is
non-`NULL`, and `(rel_created − acc_created).days < 7` — in particular
whenever the relationship's first-seen time precedes the account-creation
time by any amount — and it is `0` whenever either timestamp is
missing. -/
theorem claim_C10 (s : Store) (a b : String) (r : Rel)
    (h : findRel s a b = some r) :
    ∃ d, (calculateRiskScore s a b).2 = some d ∧
      d.newAccountRisk = (newAccountFlag s b r.createdAt : ℚ) * 20 ∧
      (d.newAccountRisk = 20 ↔
        ∃ acc, findAccount s b = some acc ∧
          ∃ t, r.createdAt = some t ∧ (t - acc.createdAt).fdiv 86400 < 7) ∧
      ((findAccount s b = none ∨ r.createdAt = none) → d.newAccountRisk = 0) ∧
      (∀ acc t, findAccount s b = some acc → r.createdAt = some t →
        t ≤ acc.createdAt → d.newAccountRisk = 20) := by
  unfold calculateRiskScore
  rw [h]
  refine ⟨_, rfl, rfl, ?_, ?_, ?_⟩
  · dsimp only
    rw [← newAccountFlag_eq_one_iff s b r.createdAt]
    rcases newAccountFlag_zero_or_one s b r.createdAt with h0 | h1
    · rw [h0]; norm_num
    · rw [h1]; norm_num
  · rintro (hacc | hc) <;> dsimp only
    · rw [newAccountFlag_of_none_acct hacc]
      norm_num
    · rw [hc, newAccountFlag_of_none_rel]
      norm_num
  · intro acc t hacc hc hle
    dsimp only
    have h1 : newAccountFlag s b r.createdAt = 1 :=
      (newAccountFlag_eq_one_iff s b r.createdAt).mpr
        ⟨acc, hacc, t, hc, by
          rw [Int.fdiv_eq_ediv _ (by norm_num)]
          omega⟩
    rw [h1]
    norm_num

/-- Witness for `claim_C10` at `storeNewAcct`: the relationship was first
seen 500 seconds after the epoch, the account created at 1000, so the
first-seen time precedes account creation and the flag contributes 20. -/
theorem claim_C10_witness :
    ∃ d, (calculateRiskScore storeNewAcct "A" "B").2 = some d ∧
      d.newAccountRisk = (newAccountFlag storeNewAcct "B" (some 500) : ℚ) * 20 ∧
      d.newAccountRisk = 20 := by
  obtain ⟨d, hd, heq, -, -, hpre⟩ :=
    claim_C10 storeNewAcct "A" "B" ⟨"A", "B", 1, 1, some 500⟩ (by decide)
  exact ⟨d, hd, heq, hpre ⟨"B", 0, 1000⟩ 500 (by decide) rfl (by norm_num)⟩

end Sleuther
